import Mathlib

/-!
Verification development for the ProjectNeon native boundary layer
(`src/main/native/neon_jni.c` together with its public C header
`project_neon.h`).

The C file has two public surfaces:
  * the JNI entry points `Java_..._NeonClientJNI_neonClientConnect` etc.,
    modelled here under their Java-native names `neonClientConnect`, ...;
  * the plain C convenience wrappers `neon_client_connect`, ... which attach
    the calling thread to the JVM and then delegate to the JNI entry points.

Modelling conventions (shallow embedding):
  * C strings are lists of byte values (`List Nat`), NUL excluded.
  * The per-thread state (`ThreadState`) carries the thread-local error
    buffer `g_error_buffer` (its visible content, at most 511 bytes) and
    whether a managed (Java) exception is currently pending on the thread.
  * The managed runtime is an oracle: each forwarded call receives an
    `MOutcome` saying whether the Java call returned a value or raised an
    exception.  `JNI CallXMethod` with outcome `exn` sets the pending flag;
    the value a `CallXMethod` returns when an exception was raised is
    unspecified by JNI and is modelled as `0` / `false`.
  * Method and class lookups (`GetMethodID` on the two cached classes) are
    assumed to succeed: the classes are resolved once at load time and the
    methods exist in the Java library; those failure branches of the C code
    are not reachable in a correctly linked process and are left out.
  * String marshalling (`GetStringUTFChars` / `NewStringUTF`) is assumed not
    to hit allocation failure, likewise `malloc` for handles.
-/

/-- Bytes of an ASCII string literal, used to write the C error-message
string constants of `neon_jni.c` as byte lists. -/
def strBytes (s : String) : List Nat := s.data.map Char.toNat

/-- Error-message constants appearing in `neon_jni.c`. -/
def msgInvalidClientHandle : List Nat := strBytes "Invalid client handle"

def msgInvalidHostHandle : List Nat := strBytes "Invalid host handle"

def msgInvalidRelayFormat : List Nat :=
  strBytes "Invalid relay address format (expected host:port)"

def msgClientNameNull : List Nat := strBytes "Client name cannot be null"

def msgRelayAddrNull : List Nat := strBytes "Relay address cannot be null"

def msgCreateClientFailed : List Nat := strBytes "Failed to create NeonClient instance"

def msgCreateHostFailed : List Nat := strBytes "Failed to create NeonHost instance"

def msgExnConnect : List Nat := strBytes "Exception during connect"

def msgExnProcessPackets : List Nat := strBytes "Exception during processPackets"

def msgExnSendPing : List Nat := strBytes "Exception during sendPing"

def msgExnStart : List Nat := strBytes "Exception during start"

def msgJvmNotInitialized : List Nat := strBytes "JVM not initialized"

def msgAttachFailed : List Nat := strBytes "Failed to attach thread to JVM"

def msgGetEnvFailed : List Nat := strBytes "Failed to get JNI environment"

/-- Per-thread state of the boundary: the visible content of the
thread-local `g_error_buffer` (bytes up to the first NUL) and whether a
managed exception is pending on this thread's JNI environment. -/
structure ThreadState where
  err : List Nat
  pending : Bool
deriving Repr, DecidableEq

/-- Thread state at thread start: zero-initialised error buffer, no pending
exception. -/
def initThreadState : ThreadState := ⟨[], false⟩

/-- Model of `set_error` (neon_jni.c lines 39-42): `strncpy` into the
512-byte thread-local buffer with the last byte forced to NUL, so at most
511 visible bytes of the message are stored.  The pending-exception flag is
untouched. -/
def set_error (msg : List Nat) (ts : ThreadState) : ThreadState :=
  { ts with err := msg.take 511 }

/-- Model of `neon_get_last_error` (lines 961-966) and of the JNI accessor
`neonGetLastError` (lines 390-395): the NULL sentinel when the buffer's
first byte is NUL, otherwise the buffer content. -/
def neon_get_last_error (ts : ThreadState) : Option (List Nat) :=
  if ts.err = [] then none else some ts.err

/-- Outcome of a forwarded call into the managed (Java) side: a returned
value, or a raised exception. -/
inductive MOutcome where
  | ok (v : Int)
  | exn
deriving Repr, DecidableEq

/-- Whether a managed outcome is an exception. -/
def MOutcome.isExn : MOutcome → Bool
  | .exn => true
  | .ok _ => false

/-- Outcome of `get_jni_env` for the calling thread (lines 44-63). -/
inductive EnvOutcome where
  | envOk
  | envNoJvm
  | envAttachFail
  | envGetFailed
deriving Repr, DecidableEq

/-- Model of `get_jni_env` (lines 44-63): returns whether a JNI environment
was obtained; on failure it records the corresponding error message. -/
def get_jni_env (e : EnvOutcome) (ts : ThreadState) : Bool × ThreadState :=
  match e with
  | .envOk => (true, ts)
  | .envNoJvm => (false, set_error msgJvmNotInitialized ts)
  | .envAttachFail => (false, set_error msgAttachFailed ts)
  | .envGetFailed => (false, set_error msgGetEnvFailed ts)

/-! ## Relay-address parsing

`neonClientConnect` (line 168) and `neonHostNew` (line 411) both parse the
relay address with `sscanf(addrStr, "%255[^:]:%d", host, &port)` and treat
a return value other than 2 as a parse failure.  The model below follows
the C `sscanf` semantics of that format string:

  * `%255[^:]` takes the longest run of non-`':'` bytes, capped at 255;
    it is a matching failure if that run is empty;
  * the literal `':'` must match the next input byte exactly;
  * `%d` skips C whitespace, accepts an optional sign, then needs at least
    one decimal digit and takes the longest run of digits; input left after
    the digits is simply not consumed (`sscanf` still returns 2).
-/

/-- Is a byte a decimal digit (ASCII 48-57)? -/
def isDigitByte (b : Nat) : Bool := 48 ≤ b && b ≤ 57

/-- Is a byte C whitespace (as skipped by `%d`): space, \t, \n, \v, \f, \r. -/
def isSpaceByte (b : Nat) : Bool := b == 32 || (9 ≤ b && b ≤ 13)

/-- Numeric value of a digit run, most significant first. -/
def digitsVal (l : List Nat) : Nat := l.foldl (fun a b => a * 10 + (b - 48)) 0

/-- Model of one `%d` conversion of `sscanf`: skip whitespace, optional
sign, then at least one digit; returns the signed value and the unconsumed
rest of the input, or `none` on matching/input failure. -/
def parseIntScan (l : List Nat) : Option (Int × List Nat) :=
  let l1 := l.dropWhile isSpaceByte
  let signAndRest : Bool × List Nat :=
    match l1 with
    | 45 :: t => (true, t)
    | 43 :: t => (false, t)
    | _ => (false, l1)
  let digs := signAndRest.2.takeWhile isDigitByte
  if digs = [] then none
  else
    let v : Int := (digitsVal digs : Nat)
    some (if signAndRest.1 then -v else v, signAndRest.2.drop digs.length)

/-- Model of the `sscanf(addr, "%255[^:]:%d", host, &port)` parse shared by
`neonClientConnect` and `neonHostNew`: `some (host, port)` exactly when
`sscanf` returns 2. -/
def parseRelayAddress (s : List Nat) : Option (List Nat × Int) :=
  let host := (s.takeWhile (fun b => b ≠ 58)).take 255
  if host = [] then none
  else
    match s.drop host.length with
    | b :: rest =>
      if b = 58 then
        match parseIntScan rest with
        | some (p, _) => some (host, p)
        | none => none
      else none
    | [] => none

/-- Modelled from the spec: the exact relay-address form the specification
describes — `host:port` with a non-empty host of at most 255 bytes
containing no colon, a port that is an unsigned decimal integer in the
range 0-65535, and nothing else in the token.  This definition follows the
spec's words and is compared against `parseRelayAddress`, which is
translated from the code. -/
def specRelayAddressOk (s : List Nat) : Bool :=
  let host := s.takeWhile (fun b => b ≠ 58)
  match s.drop host.length with
  | 58 :: portBytes =>
    decide (host ≠ []) && decide (host.length ≤ 255) &&
    decide (portBytes ≠ []) && portBytes.all isDigitByte &&
    decide (digitsVal portBytes ≤ 65535)
  | _ => false

/-! ## Handle structures (neon_jni.c lines 22-37)

Java object references and native function pointers are modelled as `Int`
values (a `jobject` identity, resp. the raw `jlong` bits of the pointer,
with `0` the null pointer). -/

/-- Model of `struct NeonClientHandle`: one global Java reference plus five
nullable native callback pointers. -/
structure ClientHandle where
  javaObject : Int
  pongCallback : Int
  sessionConfigCallback : Int
  packetTypeRegistryCallback : Int
  unhandledPacketCallback : Int
  wrongDestinationCallback : Int
deriving Repr, DecidableEq

/-- Model of `struct NeonHostHandle`: one global Java reference plus four
nullable native callback pointers. -/
structure HostHandle where
  javaObject : Int
  clientConnectCallback : Int
  clientDenyCallback : Int
  pingReceivedCallback : Int
  unhandledPacketCallback : Int
deriving Repr, DecidableEq

/-! ## JNI entry points (client)

Each JNI function takes the handle argument as `Option` (`none` models the
null/zero `jlong`), the oracle outcome of any forwarded managed call, and
the calling thread's state. -/

/-- Model of `neonClientNew` (lines 105-150): null name is rejected; a
constructor exception makes `NewObject` return null with the exception left
pending, and the code then records an error without clearing it; on success
a handle with an all-null callback table is returned. -/
def neonClientNew (name : Option (List Nat)) (ctor : MOutcome)
    (ts : ThreadState) : Option ClientHandle × ThreadState :=
  match name with
  | none => (none, set_error msgClientNameNull ts)
  | some _ =>
    match ctor with
    | .exn => (none, set_error msgCreateClientFailed { ts with pending := true })
    | .ok obj => (some ⟨obj, 0, 0, 0, 0, 0⟩, ts)

/-- Model of `neonClientConnect` (lines 152-201): null handle and bad
address are rejected with an error; a managed exception during `connect` is
described, cleared, recorded as "Exception during connect" and mapped to
`false`; otherwise `true`. -/
def neonClientConnect (clientPtr : Option ClientHandle) (sessionId : Int)
    (relayAddr : List Nat) (m : MOutcome) (ts : ThreadState) :
    Bool × ThreadState :=
  match clientPtr with
  | none => (false, set_error msgInvalidClientHandle ts)
  | some _ =>
    match parseRelayAddress relayAddr with
    | none => (false, set_error msgInvalidRelayFormat ts)
    | some _ =>
      match m with
      | .exn => (false, set_error msgExnConnect { ts with pending := false })
      | .ok _ => (true, ts)

/-- Model of `neonClientProcessPackets` (lines 203-227): exception checked
and cleared, mapped to -1 with "Exception during processPackets". -/
def neonClientProcessPackets (clientPtr : Option ClientHandle) (m : MOutcome)
    (ts : ThreadState) : Int × ThreadState :=
  match clientPtr with
  | none => (-1, set_error msgInvalidClientHandle ts)
  | some _ =>
    match m with
    | .exn => (-1, set_error msgExnProcessPackets { ts with pending := false })
    | .ok v => (v, ts)

/-- Model of `neonClientGetId` (lines 229-244): the result of
`CallIntMethod` is returned directly, with no `ExceptionCheck` — an
exception raised by `getClientId` stays pending on the thread. -/
def neonClientGetId (clientPtr : Option ClientHandle) (m : MOutcome)
    (ts : ThreadState) : Int × ThreadState :=
  match clientPtr with
  | none => (-1, set_error msgInvalidClientHandle ts)
  | some _ =>
    match m with
    | .exn => (0, { ts with pending := true })
    | .ok v => (v, ts)

/-- Model of `neonClientGetSessionId` (lines 246-261): same shape as
`neonClientGetId`, no `ExceptionCheck`. -/
def neonClientGetSessionId (clientPtr : Option ClientHandle) (m : MOutcome)
    (ts : ThreadState) : Int × ThreadState :=
  match clientPtr with
  | none => (-1, set_error msgInvalidClientHandle ts)
  | some _ =>
    match m with
    | .exn => (0, { ts with pending := true })
    | .ok v => (v, ts)

/-- Model of `neonClientIsConnected` (lines 263-276): a null handle yields
`false` without writing the error buffer; the result of
`CallBooleanMethod` is returned with no `ExceptionCheck`. -/
def neonClientIsConnected (clientPtr : Option ClientHandle) (m : MOutcome)
    (ts : ThreadState) : Bool × ThreadState :=
  match clientPtr with
  | none => (false, ts)
  | some _ =>
    match m with
    | .exn => (false, { ts with pending := true })
    | .ok v => (v ≠ 0, ts)

/-- Model of `neonClientSendPing` (lines 278-302): exception checked and
cleared, mapped to `false` with "Exception during sendPing". -/
def neonClientSendPing (clientPtr : Option ClientHandle) (m : MOutcome)
    (ts : ThreadState) : Bool × ThreadState :=
  match clientPtr with
  | none => (false, set_error msgInvalidClientHandle ts)
  | some _ =>
    match m with
    | .exn => (false, set_error msgExnSendPing { ts with pending := false })
    | .ok _ => (true, ts)

/-- Model of `neonClientSetAutoPing` (lines 304-319): a null handle writes
"Invalid client handle" and returns; otherwise `setAutoPing` is invoked
with no `ExceptionCheck` afterwards. -/
def neonClientSetAutoPing (clientPtr : Option ClientHandle) (enabled : Bool)
    (m : MOutcome) (ts : ThreadState) : ThreadState :=
  match clientPtr with
  | none => set_error msgInvalidClientHandle ts
  | some _ =>
    match m with
    | .exn => { ts with pending := true }
    | .ok _ => ts

/-- Model of `neonClientSetPongCallback` (lines 321-329): a null handle
writes "Invalid client handle"; otherwise the `jlong` is stored verbatim
into the pong slot and nothing is invoked. -/
def neonClientSetPongCallback (clientPtr : Option ClientHandle) (cb : Int)
    (ts : ThreadState) : Option ClientHandle × ThreadState :=
  match clientPtr with
  | none => (none, set_error msgInvalidClientHandle ts)
  | some h => (some { h with pongCallback := cb }, ts)

/-- Model of `neonClientSetSessionConfigCallback` (lines 331-339). -/
def neonClientSetSessionConfigCallback (clientPtr : Option ClientHandle)
    (cb : Int) (ts : ThreadState) : Option ClientHandle × ThreadState :=
  match clientPtr with
  | none => (none, set_error msgInvalidClientHandle ts)
  | some h => (some { h with sessionConfigCallback := cb }, ts)

/-- Model of `neonClientSetPacketTypeRegistryCallback` (lines 341-349). -/
def neonClientSetPacketTypeRegistryCallback (clientPtr : Option ClientHandle)
    (cb : Int) (ts : ThreadState) : Option ClientHandle × ThreadState :=
  match clientPtr with
  | none => (none, set_error msgInvalidClientHandle ts)
  | some h => (some { h with packetTypeRegistryCallback := cb }, ts)

/-- Model of `neonClientSetUnhandledPacketCallback` (lines 351-359). -/
def neonClientSetUnhandledPacketCallback (clientPtr : Option ClientHandle)
    (cb : Int) (ts : ThreadState) : Option ClientHandle × ThreadState :=
  match clientPtr with
  | none => (none, set_error msgInvalidClientHandle ts)
  | some h => (some { h with unhandledPacketCallback := cb }, ts)

/-- Model of `neonClientSetWrongDestinationCallback` (lines 361-369). -/
def neonClientSetWrongDestinationCallback (clientPtr : Option ClientHandle)
    (cb : Int) (ts : ThreadState) : Option ClientHandle × ThreadState :=
  match clientPtr with
  | none => (none, set_error msgInvalidClientHandle ts)
  | some h => (some { h with wrongDestinationCallback := cb }, ts)

/-- Model of `neonClientFree` (lines 371-388): a null handle is a silent
no-op; an exception from the managed `close` is cleared and swallowed
without recording an error. -/
def neonClientFree (clientPtr : Option ClientHandle) (closeOutcome : MOutcome)
    (ts : ThreadState) : ThreadState :=
  match clientPtr with
  | none => ts
  | some _ =>
    match closeOutcome with
    | .exn => { ts with pending := false }
    | .ok _ => ts

/-! ## JNI entry points (host) -/

/-- Result of `neonHostNew`, carrying whether the managed constructor was
reached, so that the fail-fast property of the address parse is visible. -/
structure HostNewResult where
  handle : Option HostHandle
  constructorInvoked : Bool
  ts : ThreadState
deriving Repr, DecidableEq

/-- Model of `neonHostNew` (lines 397-456): null address rejected, then the
relay address is parsed *before* any managed-runtime construction; only
when the parse succeeds is the `NeonHost` constructor invoked.  A
constructor exception makes `NewObject` return null with the exception
left pending; the code records an error without clearing it. -/
def neonHostNew (sessionId : Int) (relayAddr : Option (List Nat))
    (ctor : MOutcome) (ts : ThreadState) : HostNewResult :=
  match relayAddr with
  | none => ⟨none, false, set_error msgRelayAddrNull ts⟩
  | some addr =>
    match parseRelayAddress addr with
    | none => ⟨none, false, set_error msgInvalidRelayFormat ts⟩
    | some _ =>
      match ctor with
      | .exn => ⟨none, true, set_error msgCreateHostFailed { ts with pending := true }⟩
      | .ok obj => ⟨some ⟨obj, 0, 0, 0, 0⟩, true, ts⟩

/-- Model of `neonHostStart` (lines 458-482): exception checked and
cleared, mapped to `false` with "Exception during start". -/
def neonHostStart (hostPtr : Option HostHandle) (m : MOutcome)
    (ts : ThreadState) : Bool × ThreadState :=
  match hostPtr with
  | none => (false, set_error msgInvalidHostHandle ts)
  | some _ =>
    match m with
    | .exn => (false, set_error msgExnStart { ts with pending := false })
    | .ok _ => (true, ts)

/-- Model of `neonHostProcessPackets` (lines 484-508): exception checked
and cleared, mapped to -1 with "Exception during processPackets". -/
def neonHostProcessPackets (hostPtr : Option HostHandle) (m : MOutcome)
    (ts : ThreadState) : Int × ThreadState :=
  match hostPtr with
  | none => (-1, set_error msgInvalidHostHandle ts)
  | some _ =>
    match m with
    | .exn => (-1, set_error msgExnProcessPackets { ts with pending := false })
    | .ok v => (v, ts)

/-- Model of `neonHostGetSessionId` (lines 510-525): result of
`CallIntMethod` returned directly, no `ExceptionCheck`. -/
def neonHostGetSessionId (hostPtr : Option HostHandle) (m : MOutcome)
    (ts : ThreadState) : Int × ThreadState :=
  match hostPtr with
  | none => (-1, set_error msgInvalidHostHandle ts)
  | some _ =>
    match m with
    | .exn => (0, { ts with pending := true })
    | .ok v => (v, ts)

/-- Model of `neonHostGetClientCount` (lines 527-542): a null handle yields
0 with "Invalid host handle"; no `ExceptionCheck` after the call. -/
def neonHostGetClientCount (hostPtr : Option HostHandle) (m : MOutcome)
    (ts : ThreadState) : Int × ThreadState :=
  match hostPtr with
  | none => (0, set_error msgInvalidHostHandle ts)
  | some _ =>
    match m with
    | .exn => (0, { ts with pending := true })
    | .ok v => (v, ts)

/-- Model of `neonHostSetClientConnectCallback` (lines 544-552). -/
def neonHostSetClientConnectCallback (hostPtr : Option HostHandle) (cb : Int)
    (ts : ThreadState) : Option HostHandle × ThreadState :=
  match hostPtr with
  | none => (none, set_error msgInvalidHostHandle ts)
  | some h => (some { h with clientConnectCallback := cb }, ts)

/-- Model of `neonHostSetClientDenyCallback` (lines 554-562). -/
def neonHostSetClientDenyCallback (hostPtr : Option HostHandle) (cb : Int)
    (ts : ThreadState) : Option HostHandle × ThreadState :=
  match hostPtr with
  | none => (none, set_error msgInvalidHostHandle ts)
  | some h => (some { h with clientDenyCallback := cb }, ts)

/-- Model of `neonHostSetPingReceivedCallback` (lines 564-572). -/
def neonHostSetPingReceivedCallback (hostPtr : Option HostHandle) (cb : Int)
    (ts : ThreadState) : Option HostHandle × ThreadState :=
  match hostPtr with
  | none => (none, set_error msgInvalidHostHandle ts)
  | some h => (some { h with pingReceivedCallback := cb }, ts)

/-- Model of `neonHostSetUnhandledPacketCallback` (lines 574-582). -/
def neonHostSetUnhandledPacketCallback (hostPtr : Option HostHandle) (cb : Int)
    (ts : ThreadState) : Option HostHandle × ThreadState :=
  match hostPtr with
  | none => (none, set_error msgInvalidHostHandle ts)
  | some h => (some { h with unhandledPacketCallback := cb }, ts)

/-- Model of `neonHostFree` (lines 584-601): a null handle is a silent
no-op; a `close` exception is cleared and swallowed. -/
def neonHostFree (hostPtr : Option HostHandle) (closeOutcome : MOutcome)
    (ts : ThreadState) : ThreadState :=
  match hostPtr with
  | none => ts
  | some _ =>
    match closeOutcome with
    | .exn => { ts with pending := false }
    | .ok _ => ts

/-! ## C convenience wrappers (public API of project_neon.h)

The wrappers used by the claims: they check the handle pointer for NULL
first (returning silently or with a sentinel, before any JVM interaction),
then attach via `get_jni_env` and delegate to the JNI entry point. -/

/-- Model of `neon_client_get_id` (lines 660-672): NULL handle returns 0
(silently); the JNI result is truncated to `uint8_t`. -/
def neon_client_get_id (client : Option ClientHandle) (e : EnvOutcome)
    (m : MOutcome) (ts : ThreadState) : Nat × ThreadState :=
  match client with
  | none => (0, ts)
  | some h =>
    match get_jni_env e ts with
    | (false, ts1) => (0, ts1)
    | (true, ts1) =>
      let r := neonClientGetId (some h) m ts1
      ((r.1.emod 256).toNat, r.2)

/-- Model of `neon_client_get_session_id` (lines 674-686): NULL handle
returns 0 (silently); the JNI result is converted to `uint32_t`. -/
def neon_client_get_session_id (client : Option ClientHandle) (e : EnvOutcome)
    (m : MOutcome) (ts : ThreadState) : Nat × ThreadState :=
  match client with
  | none => (0, ts)
  | some h =>
    match get_jni_env e ts with
    | (false, ts1) => (0, ts1)
    | (true, ts1) =>
      let r := neonClientGetSessionId (some h) m ts1
      ((r.1.emod 4294967296).toNat, r.2)

/-- Model of `neon_client_is_connected` (lines 688-700): NULL handle
returns `false` silently. -/
def neon_client_is_connected (client : Option ClientHandle) (e : EnvOutcome)
    (m : MOutcome) (ts : ThreadState) : Bool × ThreadState :=
  match client with
  | none => (false, ts)
  | some h =>
    match get_jni_env e ts with
    | (false, ts1) => (false, ts1)
    | (true, ts1) => neonClientIsConnected (some h) m ts1

/-- Model of `neon_client_process_packets` (lines 645-658): NULL handle
returns -1 with "Invalid client handle". -/
def neon_client_process_packets (client : Option ClientHandle) (e : EnvOutcome)
    (m : MOutcome) (ts : ThreadState) : Int × ThreadState :=
  match client with
  | none => (-1, set_error msgInvalidClientHandle ts)
  | some h =>
    match get_jni_env e ts with
    | (false, ts1) => (-1, ts1)
    | (true, ts1) => neonClientProcessPackets (some h) m ts1

/-- Model of `neon_host_get_client_count` (lines 877-889): NULL handle
returns 0 silently; result converted to `size_t` (non-negative values are
unchanged). -/
def neon_host_get_client_count (host : Option HostHandle) (e : EnvOutcome)
    (m : MOutcome) (ts : ThreadState) : Int × ThreadState :=
  match host with
  | none => (0, ts)
  | some h =>
    match get_jni_env e ts with
    | (false, ts1) => (0, ts1)
    | (true, ts1) => neonHostGetClientCount (some h) m ts1

/-- Model of `neon_client_set_auto_ping` (lines 717-729): NULL handle
returns silently before any JVM interaction. -/
def neon_client_set_auto_ping (client : Option ClientHandle) (enabled : Bool)
    (e : EnvOutcome) (m : MOutcome) (ts : ThreadState) : ThreadState :=
  match client with
  | none => ts
  | some h =>
    match get_jni_env e ts with
    | (false, ts1) => ts1
    | (true, ts1) => neonClientSetAutoPing (some h) enabled m ts1

/-- Model of `neon_client_set_pong_callback` (lines 731-743): NULL handle
returns silently. -/
def neon_client_set_pong_callback (client : Option ClientHandle) (cb : Int)
    (e : EnvOutcome) (ts : ThreadState) : Option ClientHandle × ThreadState :=
  match client with
  | none => (none, ts)
  | some h =>
    match get_jni_env e ts with
    | (false, ts1) => (some h, ts1)
    | (true, ts1) => neonClientSetPongCallback (some h) cb ts1

/-- Model of `neon_client_set_session_config_callback` (lines 745-757). -/
def neon_client_set_session_config_callback (client : Option ClientHandle)
    (cb : Int) (e : EnvOutcome) (ts : ThreadState) :
    Option ClientHandle × ThreadState :=
  match client with
  | none => (none, ts)
  | some h =>
    match get_jni_env e ts with
    | (false, ts1) => (some h, ts1)
    | (true, ts1) => neonClientSetSessionConfigCallback (some h) cb ts1

/-- Model of `neon_client_set_packet_type_registry_callback`
(lines 759-771). -/
def neon_client_set_packet_type_registry_callback (client : Option ClientHandle)
    (cb : Int) (e : EnvOutcome) (ts : ThreadState) :
    Option ClientHandle × ThreadState :=
  match client with
  | none => (none, ts)
  | some h =>
    match get_jni_env e ts with
    | (false, ts1) => (some h, ts1)
    | (true, ts1) => neonClientSetPacketTypeRegistryCallback (some h) cb ts1

/-- Model of `neon_client_set_unhandled_packet_callback` (lines 773-785). -/
def neon_client_set_unhandled_packet_callback (client : Option ClientHandle)
    (cb : Int) (e : EnvOutcome) (ts : ThreadState) :
    Option ClientHandle × ThreadState :=
  match client with
  | none => (none, ts)
  | some h =>
    match get_jni_env e ts with
    | (false, ts1) => (some h, ts1)
    | (true, ts1) => neonClientSetUnhandledPacketCallback (some h) cb ts1

/-- Model of `neon_client_set_wrong_destination_callback`
(lines 787-799). -/
def neon_client_set_wrong_destination_callback (client : Option ClientHandle)
    (cb : Int) (e : EnvOutcome) (ts : ThreadState) :
    Option ClientHandle × ThreadState :=
  match client with
  | none => (none, ts)
  | some h =>
    match get_jni_env e ts with
    | (false, ts1) => (some h, ts1)
    | (true, ts1) => neonClientSetWrongDestinationCallback (some h) cb ts1

/-- Model of `neon_host_set_client_connect_callback` (lines 891-903). -/
def neon_host_set_client_connect_callback (host : Option HostHandle)
    (cb : Int) (e : EnvOutcome) (ts : ThreadState) :
    Option HostHandle × ThreadState :=
  match host with
  | none => (none, ts)
  | some h =>
    match get_jni_env e ts with
    | (false, ts1) => (some h, ts1)
    | (true, ts1) => neonHostSetClientConnectCallback (some h) cb ts1

/-- Model of `neon_host_set_client_deny_callback` (lines 905-917). -/
def neon_host_set_client_deny_callback (host : Option HostHandle)
    (cb : Int) (e : EnvOutcome) (ts : ThreadState) :
    Option HostHandle × ThreadState :=
  match host with
  | none => (none, ts)
  | some h =>
    match get_jni_env e ts with
    | (false, ts1) => (some h, ts1)
    | (true, ts1) => neonHostSetClientDenyCallback (some h) cb ts1

/-- Model of `neon_host_set_ping_received_callback` (lines 919-931). -/
def neon_host_set_ping_received_callback (host : Option HostHandle)
    (cb : Int) (e : EnvOutcome) (ts : ThreadState) :
    Option HostHandle × ThreadState :=
  match host with
  | none => (none, ts)
  | some h =>
    match get_jni_env e ts with
    | (false, ts1) => (some h, ts1)
    | (true, ts1) => neonHostSetPingReceivedCallback (some h) cb ts1

/-- Model of `neon_host_set_unhandled_packet_callback` (lines 933-945). -/
def neon_host_set_unhandled_packet_callback (host : Option HostHandle)
    (cb : Int) (e : EnvOutcome) (ts : ThreadState) :
    Option HostHandle × ThreadState :=
  match host with
  | none => (none, ts)
  | some h =>
    match get_jni_env e ts with
    | (false, ts1) => (some h, ts1)
    | (true, ts1) => neonHostSetUnhandledPacketCallback (some h) cb ts1

/-! ## Uniform view of the JNI surface

For the claims quantifying over *all* operations (error-channel framing,
thread isolation, non-empty-message invariant) the JNI entry points are
collected into one operation type with a single dispatcher. -/

/-- One invocation of a JNI entry point, with its arguments and the oracle
outcome of any forwarded managed call. -/
inductive Op where
  | clientNew (name : Option (List Nat)) (ctor : MOutcome)
  | clientConnect (h : Option ClientHandle) (sid : Int) (addr : List Nat) (m : MOutcome)
  | clientProcessPackets (h : Option ClientHandle) (m : MOutcome)
  | clientGetId (h : Option ClientHandle) (m : MOutcome)
  | clientGetSessionId (h : Option ClientHandle) (m : MOutcome)
  | clientIsConnected (h : Option ClientHandle) (m : MOutcome)
  | clientSendPing (h : Option ClientHandle) (m : MOutcome)
  | clientSetAutoPing (h : Option ClientHandle) (enabled : Bool) (m : MOutcome)
  | clientSetPong (h : Option ClientHandle) (cb : Int)
  | clientSetSessionConfig (h : Option ClientHandle) (cb : Int)
  | clientSetPacketTypeRegistry (h : Option ClientHandle) (cb : Int)
  | clientSetUnhandledPacket (h : Option ClientHandle) (cb : Int)
  | clientSetWrongDestination (h : Option ClientHandle) (cb : Int)
  | clientFree (h : Option ClientHandle) (closeOutcome : MOutcome)
  | hostNew (sid : Int) (addr : Option (List Nat)) (ctor : MOutcome)
  | hostStart (h : Option HostHandle) (m : MOutcome)
  | hostProcessPackets (h : Option HostHandle) (m : MOutcome)
  | hostGetSessionId (h : Option HostHandle) (m : MOutcome)
  | hostGetClientCount (h : Option HostHandle) (m : MOutcome)
  | hostSetClientConnect (h : Option HostHandle) (cb : Int)
  | hostSetClientDeny (h : Option HostHandle) (cb : Int)
  | hostSetPingReceived (h : Option HostHandle) (cb : Int)
  | hostSetUnhandledPacket (h : Option HostHandle) (cb : Int)
  | hostFree (h : Option HostHandle) (closeOutcome : MOutcome)
  | getLastError

/-- Uniform return value of a JNI entry point. -/
inductive RetVal where
  | rUnit
  | rBool (b : Bool)
  | rInt (v : Int)
  | rClientPtr (h : Option ClientHandle)
  | rHostPtr (h : Option HostHandle)
  | rStr (s : Option (List Nat))
deriving Repr, DecidableEq

/-- Dispatcher: run one JNI entry point on the calling thread's state. -/
def runOp (o : Op) (ts : ThreadState) : RetVal × ThreadState :=
  match o with
  | .clientNew name ctor =>
    let r := neonClientNew name ctor ts
    (.rClientPtr r.1, r.2)
  | .clientConnect h sid addr m =>
    let r := neonClientConnect h sid addr m ts
    (.rBool r.1, r.2)
  | .clientProcessPackets h m =>
    let r := neonClientProcessPackets h m ts
    (.rInt r.1, r.2)
  | .clientGetId h m =>
    let r := neonClientGetId h m ts
    (.rInt r.1, r.2)
  | .clientGetSessionId h m =>
    let r := neonClientGetSessionId h m ts
    (.rInt r.1, r.2)
  | .clientIsConnected h m =>
    let r := neonClientIsConnected h m ts
    (.rBool r.1, r.2)
  | .clientSendPing h m =>
    let r := neonClientSendPing h m ts
    (.rBool r.1, r.2)
  | .clientSetAutoPing h enabled m =>
    (.rUnit, neonClientSetAutoPing h enabled m ts)
  | .clientSetPong h cb =>
    (.rUnit, (neonClientSetPongCallback h cb ts).2)
  | .clientSetSessionConfig h cb =>
    (.rUnit, (neonClientSetSessionConfigCallback h cb ts).2)
  | .clientSetPacketTypeRegistry h cb =>
    (.rUnit, (neonClientSetPacketTypeRegistryCallback h cb ts).2)
  | .clientSetUnhandledPacket h cb =>
    (.rUnit, (neonClientSetUnhandledPacketCallback h cb ts).2)
  | .clientSetWrongDestination h cb =>
    (.rUnit, (neonClientSetWrongDestinationCallback h cb ts).2)
  | .clientFree h closeOutcome =>
    (.rUnit, neonClientFree h closeOutcome ts)
  | .hostNew sid addr ctor =>
    let r := neonHostNew sid addr ctor ts
    (.rHostPtr r.handle, r.ts)
  | .hostStart h m =>
    let r := neonHostStart h m ts
    (.rBool r.1, r.2)
  | .hostProcessPackets h m =>
    let r := neonHostProcessPackets h m ts
    (.rInt r.1, r.2)
  | .hostGetSessionId h m =>
    let r := neonHostGetSessionId h m ts
    (.rInt r.1, r.2)
  | .hostGetClientCount h m =>
    let r := neonHostGetClientCount h m ts
    (.rInt r.1, r.2)
  | .hostSetClientConnect h cb =>
    (.rUnit, (neonHostSetClientConnectCallback h cb ts).2)
  | .hostSetClientDeny h cb =>
    (.rUnit, (neonHostSetClientDenyCallback h cb ts).2)
  | .hostSetPingReceived h cb =>
    (.rUnit, (neonHostSetPingReceivedCallback h cb ts).2)
  | .hostSetUnhandledPacket h cb =>
    (.rUnit, (neonHostSetUnhandledPacketCallback h cb ts).2)
  | .hostFree h closeOutcome =>
    (.rUnit, neonHostFree h closeOutcome ts)
  | .getLastError =>
    (.rStr (neon_get_last_error ts), ts)

/-- Does the entry point reach its normal (success) return, with no
rejection and no managed exception?  Determined by the inputs, matching
the branch structure of the C functions. -/
def successPath (o : Op) : Bool :=
  match o with
  | .clientNew name ctor => name.isSome && !ctor.isExn
  | .clientConnect h _ addr m =>
    h.isSome && (parseRelayAddress addr).isSome && !m.isExn
  | .clientProcessPackets h m => h.isSome && !m.isExn
  | .clientGetId h m => h.isSome && !m.isExn
  | .clientGetSessionId h m => h.isSome && !m.isExn
  | .clientIsConnected h m => h.isSome && !m.isExn
  | .clientSendPing h m => h.isSome && !m.isExn
  | .clientSetAutoPing h _ m => h.isSome && !m.isExn
  | .clientSetPong h _ => h.isSome
  | .clientSetSessionConfig h _ => h.isSome
  | .clientSetPacketTypeRegistry h _ => h.isSome
  | .clientSetUnhandledPacket h _ => h.isSome
  | .clientSetWrongDestination h _ => h.isSome
  | .clientFree h _ => h.isSome
  | .hostNew _ addr ctor =>
    (match addr with
     | some a => (parseRelayAddress a).isSome
     | none => false) && !ctor.isExn
  | .hostStart h m => h.isSome && !m.isExn
  | .hostProcessPackets h m => h.isSome && !m.isExn
  | .hostGetSessionId h m => h.isSome && !m.isExn
  | .hostGetClientCount h m => h.isSome && !m.isExn
  | .hostSetClientConnect h _ => h.isSome
  | .hostSetClientDeny h _ => h.isSome
  | .hostSetPingReceived h _ => h.isSome
  | .hostSetUnhandledPacket h _ => h.isSome
  | .hostFree h _ => h.isSome
  | .getLastError => true

/-- Does the entry point call `set_error` on these inputs?  (The failing
branches of each C function that record a message; queries such as
`isConnected` and the free operations never do.) -/
def writesError (o : Op) : Bool :=
  match o with
  | .clientNew name ctor => name.isNone || ctor.isExn
  | .clientConnect h _ addr m =>
    h.isNone || (parseRelayAddress addr).isNone || m.isExn
  | .clientProcessPackets h m => h.isNone || m.isExn
  | .clientGetId h _ => h.isNone
  | .clientGetSessionId h _ => h.isNone
  | .clientIsConnected _ _ => false
  | .clientSendPing h m => h.isNone || m.isExn
  | .clientSetAutoPing h _ _ => h.isNone
  | .clientSetPong h _ => h.isNone
  | .clientSetSessionConfig h _ => h.isNone
  | .clientSetPacketTypeRegistry h _ => h.isNone
  | .clientSetUnhandledPacket h _ => h.isNone
  | .clientSetWrongDestination h _ => h.isNone
  | .clientFree _ _ => false
  | .hostNew _ addr ctor =>
    (match addr with
     | some a => (parseRelayAddress a).isNone
     | none => true) || ctor.isExn
  | .hostStart h m => h.isNone || m.isExn
  | .hostProcessPackets h m => h.isNone || m.isExn
  | .hostGetSessionId h _ => h.isNone
  | .hostGetClientCount h _ => h.isNone
  | .hostSetClientConnect h _ => h.isNone
  | .hostSetClientDeny h _ => h.isNone
  | .hostSetPingReceived h _ => h.isNone
  | .hostSetUnhandledPacket h _ => h.isNone
  | .hostFree _ _ => false
  | .getLastError => false

/-- Multi-thread view: the thread-local storage of every thread,
indexed by a thread identifier. -/
def MState := Nat → ThreadState

/-- Running a JNI entry point on thread `t`: only thread `t`'s
thread-local storage is consulted and updated, the direct image of the C
`__thread` / `__declspec(thread)` storage class of `g_error_buffer` and of
the per-thread JNI exception state. -/
def runOpAt (o : Op) (t : Nat) (σ : MState) : RetVal × MState :=
  let r := runOp o (σ t)
  (r.1, fun u => if u = t then r.2 else σ u)

/-! ## Helper lemmas -/

/-- Splitting any list at the capped non-colon run: the scanned host
followed by the unconsumed rest reassembles the input. -/
theorem takeWhile_take_append_drop (p : Nat → Bool) (n : Nat) (s : List Nat) :
    (s.takeWhile p).take n ++ s.drop ((s.takeWhile p).take n).length = s := by
  induction s generalizing n with
  | nil => simp
  | cons a t ih =>
    by_cases hpa : p a
    · cases n with
      | zero => simp
      | succ m =>
        simp only [List.takeWhile_cons, hpa, if_true, List.take_succ_cons,
          List.length_cons, List.drop_succ_cons, List.cons_append,
          List.cons.injEq, true_and]
        exact ih m
    · simp [List.takeWhile_cons, hpa]

/-- A run of bytes all satisfying `p`, stopped by a byte falsifying `p`, is
exactly what `takeWhile` scans. -/
theorem takeWhile_append_cons (p : Nat → Bool) (h : List Nat) (x : Nat)
    (t : List Nat) (hh : ∀ b ∈ h, p b = true) (hx : p x = false) :
    (h ++ x :: t).takeWhile p = h := by
  induction h with
  | nil => simp [List.takeWhile_cons, hx]
  | cons a h2 ih =>
    have hpa := hh a (by simp)
    simp only [List.cons_append, List.takeWhile_cons, hpa, if_true,
      List.cons.injEq, true_and]
    exact ih (fun b hb => hh b (by simp [hb]))

/-- Every byte of the scanned host field is a non-colon byte. -/
theorem mem_host_ne_colon (s : List Nat) (b : Nat)
    (hb : b ∈ (s.takeWhile (fun b => b ≠ 58)).take 255) : b ≠ 58 := by
  have h1 : b ∈ s.takeWhile (fun b => b ≠ 58) := List.take_subset _ _ hb
  simpa using List.mem_takeWhile_imp h1

/-! ## Claim C2 -/

/-- Claim C2, counterexample: the claim says the parse accepts exactly the
strings of the form `host:port` with an in-range port and nothing after the
port.  The code's `sscanf`-based parse also accepts `"a:1x"` (trailing
bytes after the port are ignored) and `"a:99999"` (the port range is never
checked), both rejected by the spec's exact form. -/
theorem C2_counterexample :
    (parseRelayAddress (strBytes "a:1x")).isSome = true ∧
    specRelayAddressOk (strBytes "a:1x") = false ∧
    (parseRelayAddress (strBytes "a:99999")).isSome = true ∧
    specRelayAddressOk (strBytes "a:99999") = false := by
  refine ⟨?_, ?_, ?_, ?_⟩ <;> decide

/-- Claim C2, amended: the relay-address parse used by client connect and
host creation accepts `s` iff `s` splits as a non-empty host of at most
255 non-colon bytes, a colon, and a rest that `sscanf`'s `%d` accepts
(optional C whitespace, optional sign, then at least one decimal digit) —
the port value is not range-checked and bytes after the digits are
ignored.  Any rejected string makes connect and host creation return their
failure sentinel with the "Invalid relay address format" message
recorded. -/
theorem C2_relay_parse_characterization :
    ∀ (s : List Nat) (h : ClientHandle) (sid : Int) (m ctor : MOutcome)
      (ts : ThreadState),
      ((parseRelayAddress s).isSome = true ↔
        ∃ hst rest, s = hst ++ 58 :: rest ∧ hst ≠ [] ∧ hst.length ≤ 255 ∧
          (∀ b ∈ hst, b ≠ 58) ∧ (parseIntScan rest).isSome = true) ∧
      (parseRelayAddress s = none →
        neonClientConnect (some h) sid s m ts =
          (false, set_error msgInvalidRelayFormat ts) ∧
        neonHostNew sid (some s) ctor ts =
          ⟨none, false, set_error msgInvalidRelayFormat ts⟩) := by
  intro s h sid m ctor ts
  constructor
  · constructor
    · intro hacc
      simp only [parseRelayAddress] at hacc
      by_cases hh : ((s.takeWhile (fun b => b ≠ 58)).take 255) = []
      · rw [if_pos hh] at hacc; simp at hacc
      · rw [if_neg hh] at hacc
        rcases hdrop : s.drop ((s.takeWhile (fun b => b ≠ 58)).take 255).length with
          _ | ⟨b, rest⟩
        · rw [hdrop] at hacc; simp at hacc
        · rw [hdrop] at hacc
          by_cases hb : b = 58
          · subst hb
            rcases hscan : parseIntScan rest with _ | pr
            · simp [hscan] at hacc
            · refine ⟨(s.takeWhile (fun b => b ≠ 58)).take 255, rest, ?_, hh,
                List.length_take_le _ _, ?_, ?_⟩
              · have hsplit := takeWhile_take_append_drop
                  (fun b => decide (b ≠ 58)) 255 s
                rw [hdrop] at hsplit
                exact hsplit.symm
              · exact fun b hb => mem_host_ne_colon s b hb
              · rw [hscan]; rfl
          · simp [hb] at hacc
    · rintro ⟨hst, rest, rfl, hne, hlen, hmem, hscan⟩
      have h1 : (hst ++ 58 :: rest).takeWhile (fun b => decide (b ≠ 58)) = hst :=
        takeWhile_append_cons _ hst 58 rest (fun b hb => by simp [hmem b hb])
          (by simp)
      have h2 : hst.take 255 = hst := List.take_of_length_le hlen
      simp only [parseRelayAddress, h1, h2, if_neg hne]
      rw [List.drop_left]
      obtain ⟨pr, hpr⟩ := Option.isSome_iff_exists.mp hscan
      rcases pr with ⟨p, r2⟩
      simp [hpr]
  · intro hnone
    constructor
    · simp [neonClientConnect, hnone]
    · simp [neonHostNew, hnone]

/-- Claim C2, witness: a string with no colon is rejected and client
connect returns `false` with the invalid-format message recorded. -/
theorem C2_witness :
    parseRelayAddress (strBytes "noport") = none ∧
    neonClientConnect (some ⟨2, 0, 0, 0, 0, 0⟩) 1 (strBytes "noport")
      (.ok 0) initThreadState =
      (false, set_error msgInvalidRelayFormat initThreadState) :=
  ⟨by decide,
   ((C2_relay_parse_characterization (strBytes "noport") ⟨2, 0, 0, 0, 0, 0⟩ 1
      (.ok 0) (.ok 0) initThreadState).2 (by decide)).1⟩

/-! ## Claim C1 -/

/-- Claim C1, counterexample: get-id on a valid handle whose managed call
raises leaves the exception pending past the boundary and records no
"Exception during ..." diagnostic — the error buffer is still empty —
because `neonClientGetId` performs no `ExceptionCheck`. -/
theorem C1_counterexample :
    (neonClientGetId (some ⟨1, 0, 0, 0, 0, 0⟩) .exn initThreadState).2.pending = true ∧
    (neonClientGetId (some ⟨1, 0, 0, 0, 0, 0⟩) .exn initThreadState).2.err = [] := by
  exact ⟨rfl, rfl⟩

/-- Claim C1, amended: only connect, client process-packets, send-ping,
host start and host process-packets catch a managed exception — they clear
it, record "Exception during <operation>" and return the sentinel.  The
operations get-id, get-session-id, is-connected, set-auto-ping, host
get-session-id and get-client-count perform no exception check: a managed
exception stays pending past the boundary and no diagnostic is recorded. -/
theorem C1_exception_handling_per_operation :
    ∀ (h : ClientHandle) (g : HostHandle) (sid : Int) (addr : List Nat)
      (enabled : Bool) (ts : ThreadState),
      ((parseRelayAddress addr).isSome = true →
        neonClientConnect (some h) sid addr .exn ts =
          (false, set_error msgExnConnect { ts with pending := false })) ∧
      neonClientProcessPackets (some h) .exn ts =
        (-1, set_error msgExnProcessPackets { ts with pending := false }) ∧
      neonClientSendPing (some h) .exn ts =
        (false, set_error msgExnSendPing { ts with pending := false }) ∧
      neonHostStart (some g) .exn ts =
        (false, set_error msgExnStart { ts with pending := false }) ∧
      neonHostProcessPackets (some g) .exn ts =
        (-1, set_error msgExnProcessPackets { ts with pending := false }) ∧
      (neonClientGetId (some h) .exn ts).2 = { ts with pending := true } ∧
      (neonClientGetSessionId (some h) .exn ts).2 = { ts with pending := true } ∧
      (neonClientIsConnected (some h) .exn ts).2 = { ts with pending := true } ∧
      neonClientSetAutoPing (some h) enabled .exn ts = { ts with pending := true } ∧
      (neonHostGetSessionId (some g) .exn ts).2 = { ts with pending := true } ∧
      (neonHostGetClientCount (some g) .exn ts).2 = { ts with pending := true } := by
  intro h g sid addr enabled ts
  refine ⟨?_, rfl, rfl, rfl, rfl, rfl, rfl, rfl, rfl, rfl, rfl⟩
  intro hp
  obtain ⟨pr, hpr⟩ := Option.isSome_iff_exists.mp hp
  simp [neonClientConnect, hpr]

/-- Claim C1, witness: the connect conjunct at a concrete well-formed
address and exception outcome. -/
theorem C1_witness :
    (parseRelayAddress (strBytes "localhost:7777")).isSome = true ∧
    neonClientConnect (some ⟨1, 0, 0, 0, 0, 0⟩) 42 (strBytes "localhost:7777")
      .exn initThreadState =
      (false, set_error msgExnConnect { initThreadState with pending := false }) :=
  ⟨by decide,
   (C1_exception_handling_per_operation ⟨1, 0, 0, 0, 0, 0⟩ ⟨1, 0, 0, 0, 0⟩ 42
      (strBytes "localhost:7777") true initThreadState).1 (by decide)⟩

/-! ## Claim C3 -/

/-- Claim C3, counterexample: set-auto-ping on the null handle is not
silent at the JNI boundary — it writes "Invalid client handle" into the
calling thread's error buffer (so does every JNI set-callback entry
point). -/
theorem C3_counterexample :
    (neonClientSetAutoPing none true (.ok 0) initThreadState).err =
      strBytes "Invalid client handle" ∧
    (strBytes "Invalid client handle").isEmpty = false ∧
    (neonClientSetPongCallback none 7 initThreadState).2.err =
      strBytes "Invalid client handle" := by
  refine ⟨?_, ?_, ?_⟩ <;> decide

/-- Claim C3, amended: on a null handle, set-auto-ping and the
set-callback operations invoke nothing on the managed side and leave all
handle state untouched, but the JNI entry points do write "Invalid client
handle" / "Invalid host handle" into the per-thread Error Channel; only
the C-API wrappers (`neon_client_set_auto_ping`,
`neon_*_set_*_callback`), which test for NULL before touching the JVM,
are fully silent no-ops. -/
theorem C3_null_handle_setters :
    ∀ (enabled : Bool) (m : MOutcome) (e : EnvOutcome) (p : Int)
      (ts : ThreadState),
      neonClientSetAutoPing none enabled m ts =
        set_error msgInvalidClientHandle ts ∧
      neonClientSetPongCallback none p ts =
        (none, set_error msgInvalidClientHandle ts) ∧
      neonClientSetSessionConfigCallback none p ts =
        (none, set_error msgInvalidClientHandle ts) ∧
      neonClientSetPacketTypeRegistryCallback none p ts =
        (none, set_error msgInvalidClientHandle ts) ∧
      neonClientSetUnhandledPacketCallback none p ts =
        (none, set_error msgInvalidClientHandle ts) ∧
      neonClientSetWrongDestinationCallback none p ts =
        (none, set_error msgInvalidClientHandle ts) ∧
      neonHostSetClientConnectCallback none p ts =
        (none, set_error msgInvalidHostHandle ts) ∧
      neonHostSetClientDenyCallback none p ts =
        (none, set_error msgInvalidHostHandle ts) ∧
      neonHostSetPingReceivedCallback none p ts =
        (none, set_error msgInvalidHostHandle ts) ∧
      neonHostSetUnhandledPacketCallback none p ts =
        (none, set_error msgInvalidHostHandle ts) ∧
      neon_client_set_auto_ping none enabled e m ts = ts ∧
      neon_client_set_pong_callback none p e ts = (none, ts) ∧
      neon_client_set_session_config_callback none p e ts = (none, ts) ∧
      neon_client_set_packet_type_registry_callback none p e ts = (none, ts) ∧
      neon_client_set_unhandled_packet_callback none p e ts = (none, ts) ∧
      neon_client_set_wrong_destination_callback none p e ts = (none, ts) ∧
      neon_host_set_client_connect_callback none p e ts = (none, ts) ∧
      neon_host_set_client_deny_callback none p e ts = (none, ts) ∧
      neon_host_set_ping_received_callback none p e ts = (none, ts) ∧
      neon_host_set_unhandled_packet_callback none p e ts = (none, ts) := by
  intro enabled m e p ts
  exact ⟨rfl, rfl, rfl, rfl, rfl, rfl, rfl, rfl, rfl, rfl, rfl, rfl, rfl,
    rfl, rfl, rfl, rfl, rfl, rfl, rfl⟩

/-! ## Claim C4 -/

/-- Claim C4, counterexample: the public C wrapper `neon_client_get_id`
cited by the claim returns 0 on the NULL handle, not -1 (its return type
`uint8_t` cannot even carry -1: that would be 255). -/
theorem C4_counterexample :
    (neon_client_get_id none .envOk (.ok 0) initThreadState).1 = 0 ∧
    ((-1 : Int).emod 256).toNat = 255 ∧
    ((255 : Nat) == 0) = false ∧
    (neon_client_get_session_id none .envOk (.ok 0) initThreadState).1 = 0 := by
  refine ⟨?_, ?_, ?_, ?_⟩ <;> decide

/-- Claim C4, amended: at the JNI boundary get-id and get-session-id
return the sentinel -1 on the null handle; the C-API wrappers
`neon_client_get_id` and `neon_client_get_session_id` instead return 0 on
NULL (silently, matching their header documentation "0 if not
connected"). -/
theorem C4_null_handle_get_id_sentinels :
    ∀ (m : MOutcome) (e : EnvOutcome) (ts : ThreadState),
      (neonClientGetId none m ts).1 = -1 ∧
      (neonClientGetSessionId none m ts).1 = -1 ∧
      neon_client_get_id none e m ts = (0, ts) ∧
      neon_client_get_session_id none e m ts = (0, ts) := by
  intro m e ts
  exact ⟨rfl, rfl, rfl, rfl⟩

/-! ## Claim C5 -/

/-- Claim C5: calling the query operations with a null handle never faults
(total functions in the model) and returns the documented sentinel:
is-connected gives `false` (silently, state unchanged), process-packets
gives -1, get-client-count gives 0. -/
theorem C5_null_handle_query_sentinels :
    ∀ (m : MOutcome) (ts : ThreadState),
      neonClientIsConnected none m ts = (false, ts) ∧
      (neonClientProcessPackets none m ts).1 = -1 ∧
      (neonHostGetClientCount none m ts).1 = 0 := by
  intro m ts
  exact ⟨rfl, rfl, rfl⟩

/-! ## Claim C6 -/

/-- Claim C6: host creation on a malformed relay address fails fast — it
returns the null-handle sentinel with the invalid-format message recorded,
the managed constructor is never invoked, no handle is allocated, and the
pending-exception state is untouched. -/
theorem C6_host_new_fail_fast :
    ∀ (sid : Int) (addr : List Nat) (ctor : MOutcome) (ts : ThreadState),
      parseRelayAddress addr = none →
      neonHostNew sid (some addr) ctor ts =
        ⟨none, false, set_error msgInvalidRelayFormat ts⟩ := by
  intro sid addr ctor ts hp
  simp [neonHostNew, hp]

/-- Claim C6, witness: a concrete malformed address. -/
theorem C6_witness :
    parseRelayAddress (strBytes "bad-address") = none ∧
    neonHostNew 1 (some (strBytes "bad-address")) (.ok 7) initThreadState =
      ⟨none, false, set_error msgInvalidRelayFormat initThreadState⟩ :=
  ⟨by decide, C6_host_new_fail_fast 1 (strBytes "bad-address") (.ok 7)
    initThreadState (by decide)⟩

/-! ## Claim C9 -/

/-- Claim C9: each set-callback operation on a valid handle stores the
function pointer verbatim (null included) into exactly that event's slot,
leaves every other field of the handle and the thread state unchanged, and
invokes nothing — the result is the literal one-field structure update. -/
theorem C9_set_callback_frame :
    ∀ (h : ClientHandle) (g : HostHandle) (p : Int) (ts : ThreadState),
      neonClientSetPongCallback (some h) p ts =
        (some { h with pongCallback := p }, ts) ∧
      neonClientSetSessionConfigCallback (some h) p ts =
        (some { h with sessionConfigCallback := p }, ts) ∧
      neonClientSetPacketTypeRegistryCallback (some h) p ts =
        (some { h with packetTypeRegistryCallback := p }, ts) ∧
      neonClientSetUnhandledPacketCallback (some h) p ts =
        (some { h with unhandledPacketCallback := p }, ts) ∧
      neonClientSetWrongDestinationCallback (some h) p ts =
        (some { h with wrongDestinationCallback := p }, ts) ∧
      neonHostSetClientConnectCallback (some g) p ts =
        (some { g with clientConnectCallback := p }, ts) ∧
      neonHostSetClientDenyCallback (some g) p ts =
        (some { g with clientDenyCallback := p }, ts) ∧
      neonHostSetPingReceivedCallback (some g) p ts =
        (some { g with pingReceivedCallback := p }, ts) ∧
      neonHostSetUnhandledPacketCallback (some g) p ts =
        (some { g with unhandledPacketCallback := p }, ts) := by
  intro h g p ts
  exact ⟨rfl, rfl, rfl, rfl, rfl, rfl, rfl, rfl, rfl⟩

/-! ## Claims C7, C8, C10: properties of the whole JNI surface -/

/-- Every entry point that takes a `set_error` branch leaves a non-empty
message in the calling thread's error buffer (each message constant of the
C file is non-empty and truncation to 511 bytes keeps it non-empty). -/
theorem writesError_err_nonempty :
    ∀ (o : Op) (ts : ThreadState),
      writesError o = true → ((runOp o ts).2).err ≠ [] := by
  intro o ts hw
  cases o with
  | clientNew name ctor =>
    cases name <;> cases ctor <;>
      simp_all [runOp, writesError, neonClientNew, MOutcome.isExn, set_error] <;>
      decide
  | clientConnect h sid addr m =>
    cases h <;> cases m <;> rcases hp : parseRelayAddress addr with _ | pr <;>
      simp_all [runOp, writesError, neonClientConnect, MOutcome.isExn, set_error] <;>
      decide
  | clientProcessPackets h m =>
    cases h <;> cases m <;>
      simp_all [runOp, writesError, neonClientProcessPackets, MOutcome.isExn,
        set_error] <;> decide
  | clientGetId h m =>
    cases h <;> cases m <;>
      simp_all [runOp, writesError, neonClientGetId, MOutcome.isExn, set_error] <;>
      decide
  | clientGetSessionId h m =>
    cases h <;> cases m <;>
      simp_all [runOp, writesError, neonClientGetSessionId, MOutcome.isExn,
        set_error] <;> decide
  | clientIsConnected h m =>
    simp_all [writesError]
  | clientSendPing h m =>
    cases h <;> cases m <;>
      simp_all [runOp, writesError, neonClientSendPing, MOutcome.isExn,
        set_error] <;> decide
  | clientSetAutoPing h enabled m =>
    cases h <;> cases m <;>
      simp_all [runOp, writesError, neonClientSetAutoPing, MOutcome.isExn,
        set_error] <;> decide
  | clientSetPong h cb =>
    cases h <;>
      simp_all [runOp, writesError, neonClientSetPongCallback, set_error] <;>
      decide
  | clientSetSessionConfig h cb =>
    cases h <;>
      simp_all [runOp, writesError, neonClientSetSessionConfigCallback,
        set_error] <;> decide
  | clientSetPacketTypeRegistry h cb =>
    cases h <;>
      simp_all [runOp, writesError, neonClientSetPacketTypeRegistryCallback,
        set_error] <;> decide
  | clientSetUnhandledPacket h cb =>
    cases h <;>
      simp_all [runOp, writesError, neonClientSetUnhandledPacketCallback,
        set_error] <;> decide
  | clientSetWrongDestination h cb =>
    cases h <;>
      simp_all [runOp, writesError, neonClientSetWrongDestinationCallback,
        set_error] <;> decide
  | clientFree h closeOutcome =>
    simp_all [writesError]
  | hostNew sid addr ctor =>
    cases addr with
    | none =>
      cases ctor <;>
        simp_all [runOp, writesError, neonHostNew, MOutcome.isExn, set_error] <;>
        decide
    | some a =>
      cases ctor <;> rcases hp : parseRelayAddress a with _ | pr <;>
        simp_all [runOp, writesError, neonHostNew, MOutcome.isExn, set_error] <;>
        decide
  | hostStart h m =>
    cases h <;> cases m <;>
      simp_all [runOp, writesError, neonHostStart, MOutcome.isExn, set_error] <;>
      decide
  | hostProcessPackets h m =>
    cases h <;> cases m <;>
      simp_all [runOp, writesError, neonHostProcessPackets, MOutcome.isExn,
        set_error] <;> decide
  | hostGetSessionId h m =>
    cases h <;> cases m <;>
      simp_all [runOp, writesError, neonHostGetSessionId, MOutcome.isExn,
        set_error] <;> decide
  | hostGetClientCount h m =>
    cases h <;> cases m <;>
      simp_all [runOp, writesError, neonHostGetClientCount, MOutcome.isExn,
        set_error] <;> decide
  | hostSetClientConnect h cb =>
    cases h <;>
      simp_all [runOp, writesError, neonHostSetClientConnectCallback,
        set_error] <;> decide
  | hostSetClientDeny h cb =>
    cases h <;>
      simp_all [runOp, writesError, neonHostSetClientDenyCallback, set_error] <;>
      decide
  | hostSetPingReceived h cb =>
    cases h <;>
      simp_all [runOp, writesError, neonHostSetPingReceivedCallback,
        set_error] <;> decide
  | hostSetUnhandledPacket h cb =>
    cases h <;>
      simp_all [runOp, writesError, neonHostSetUnhandledPacketCallback,
        set_error] <;> decide
  | hostFree h closeOutcome =>
    simp_all [writesError]
  | getLastError =>
    simp_all [writesError]

/-- Claim C8: no operation clears the per-thread error buffer on success —
whenever an entry point takes its success path, the calling thread's error
buffer is left exactly as it was, so a message recorded by an earlier
failure is still returned by get-last-error after a later successful call
on the same thread. -/
theorem C8_success_preserves_error_channel :
    ∀ (o : Op) (ts : ThreadState),
      successPath o = true → ((runOp o ts).2).err = ts.err := by
  intro o ts hs
  cases o with
  | clientNew name ctor =>
    cases name <;> cases ctor <;>
      simp_all [runOp, successPath, neonClientNew, MOutcome.isExn]
  | clientConnect h sid addr m =>
    cases h <;> cases m <;> rcases hp : parseRelayAddress addr with _ | pr <;>
      simp_all [runOp, successPath, neonClientConnect, MOutcome.isExn]
  | clientProcessPackets h m =>
    cases h <;> cases m <;>
      simp_all [runOp, successPath, neonClientProcessPackets, MOutcome.isExn]
  | clientGetId h m =>
    cases h <;> cases m <;>
      simp_all [runOp, successPath, neonClientGetId, MOutcome.isExn]
  | clientGetSessionId h m =>
    cases h <;> cases m <;>
      simp_all [runOp, successPath, neonClientGetSessionId, MOutcome.isExn]
  | clientIsConnected h m =>
    cases h <;> cases m <;>
      simp_all [runOp, successPath, neonClientIsConnected, MOutcome.isExn]
  | clientSendPing h m =>
    cases h <;> cases m <;>
      simp_all [runOp, successPath, neonClientSendPing, MOutcome.isExn]
  | clientSetAutoPing h enabled m =>
    cases h <;> cases m <;>
      simp_all [runOp, successPath, neonClientSetAutoPing, MOutcome.isExn]
  | clientSetPong h cb =>
    cases h <;> simp_all [runOp, successPath, neonClientSetPongCallback]
  | clientSetSessionConfig h cb =>
    cases h <;>
      simp_all [runOp, successPath, neonClientSetSessionConfigCallback]
  | clientSetPacketTypeRegistry h cb =>
    cases h <;>
      simp_all [runOp, successPath, neonClientSetPacketTypeRegistryCallback]
  | clientSetUnhandledPacket h cb =>
    cases h <;>
      simp_all [runOp, successPath, neonClientSetUnhandledPacketCallback]
  | clientSetWrongDestination h cb =>
    cases h <;>
      simp_all [runOp, successPath, neonClientSetWrongDestinationCallback]
  | clientFree h closeOutcome =>
    cases h <;> cases closeOutcome <;>
      simp_all [runOp, successPath, neonClientFree]
  | hostNew sid addr ctor =>
    cases addr with
    | none => simp_all [successPath]
    | some a =>
      cases ctor <;> rcases hp : parseRelayAddress a with _ | pr <;>
        simp_all [runOp, successPath, neonHostNew, MOutcome.isExn]
  | hostStart h m =>
    cases h <;> cases m <;>
      simp_all [runOp, successPath, neonHostStart, MOutcome.isExn]
  | hostProcessPackets h m =>
    cases h <;> cases m <;>
      simp_all [runOp, successPath, neonHostProcessPackets, MOutcome.isExn]
  | hostGetSessionId h m =>
    cases h <;> cases m <;>
      simp_all [runOp, successPath, neonHostGetSessionId, MOutcome.isExn]
  | hostGetClientCount h m =>
    cases h <;> cases m <;>
      simp_all [runOp, successPath, neonHostGetClientCount, MOutcome.isExn]
  | hostSetClientConnect h cb =>
    cases h <;> simp_all [runOp, successPath, neonHostSetClientConnectCallback]
  | hostSetClientDeny h cb =>
    cases h <;> simp_all [runOp, successPath, neonHostSetClientDenyCallback]
  | hostSetPingReceived h cb =>
    cases h <;> simp_all [runOp, successPath, neonHostSetPingReceivedCallback]
  | hostSetUnhandledPacket h cb =>
    cases h <;>
      simp_all [runOp, successPath, neonHostSetUnhandledPacketCallback]
  | hostFree h closeOutcome =>
    cases h <;> cases closeOutcome <;> simp_all [runOp, successPath, neonHostFree]
  | getLastError => rfl

/-- Claim C8, witness: a successful connect leaves the error buffer
unchanged. -/
theorem C8_witness :
    successPath (.clientConnect (some ⟨1, 0, 0, 0, 0, 0⟩) 42
      (strBytes "localhost:7777") (.ok 0)) = true ∧
    ((runOp (.clientConnect (some ⟨1, 0, 0, 0, 0, 0⟩) 42
      (strBytes "localhost:7777") (.ok 0)) initThreadState).2).err =
      initThreadState.err :=
  ⟨by decide,
   C8_success_preserves_error_channel
     (.clientConnect (some ⟨1, 0, 0, 0, 0, 0⟩) 42 (strBytes "localhost:7777")
       (.ok 0)) initThreadState (by decide)⟩

/-- Claim C10: get-last-error never returns the empty string — it returns
the none sentinel or a non-empty message — and every entry point preserves
this invariant: it either leaves the calling thread's buffer unchanged or
overwrites it with a non-empty message. -/
theorem C10_no_empty_error_message :
    (∀ ts : ThreadState,
      ((neon_get_last_error ts).all fun msg => !msg.isEmpty) = true) ∧
    (∀ (o : Op) (ts : ThreadState),
      ((runOp o ts).2).err = ts.err ∨
        (((runOp o ts).2).err).isEmpty = false) := by
  constructor
  · intro ts
    rw [neon_get_last_error]
    by_cases he : ts.err = []
    · rw [if_pos he]
      rfl
    · rw [if_neg he]
      rcases hl : ts.err with _ | ⟨a, t⟩
      · exact absurd hl he
      · rfl
  · intro o ts
    by_cases hw : writesError o = true
    · right
      have hne := writesError_err_nonempty o ts hw
      rcases hl : ((runOp o ts).2).err with _ | ⟨a, t⟩
      · exact absurd hl hne
      · rfl
    · left
      cases o with
      | clientNew name ctor =>
        cases name <;> cases ctor <;>
          simp_all [runOp, writesError, neonClientNew, MOutcome.isExn]
      | clientConnect h sid addr m =>
        cases h <;> cases m <;> rcases hp : parseRelayAddress addr with _ | pr <;>
          simp_all [runOp, writesError, neonClientConnect, MOutcome.isExn]
      | clientProcessPackets h m =>
        cases h <;> cases m <;>
          simp_all [runOp, writesError, neonClientProcessPackets, MOutcome.isExn]
      | clientGetId h m =>
        cases h <;> cases m <;>
          simp_all [runOp, writesError, neonClientGetId, MOutcome.isExn]
      | clientGetSessionId h m =>
        cases h <;> cases m <;>
          simp_all [runOp, writesError, neonClientGetSessionId, MOutcome.isExn]
      | clientIsConnected h m =>
        cases h <;> cases m <;>
          simp_all [runOp, writesError, neonClientIsConnected, MOutcome.isExn]
      | clientSendPing h m =>
        cases h <;> cases m <;>
          simp_all [runOp, writesError, neonClientSendPing, MOutcome.isExn]
      | clientSetAutoPing h enabled m =>
        cases h <;> cases m <;>
          simp_all [runOp, writesError, neonClientSetAutoPing, MOutcome.isExn]
      | clientSetPong h cb =>
        cases h <;> simp_all [runOp, writesError, neonClientSetPongCallback]
      | clientSetSessionConfig h cb =>
        cases h <;>
          simp_all [runOp, writesError, neonClientSetSessionConfigCallback]
      | clientSetPacketTypeRegistry h cb =>
        cases h <;>
          simp_all [runOp, writesError, neonClientSetPacketTypeRegistryCallback]
      | clientSetUnhandledPacket h cb =>
        cases h <;>
          simp_all [runOp, writesError, neonClientSetUnhandledPacketCallback]
      | clientSetWrongDestination h cb =>
        cases h <;>
          simp_all [runOp, writesError, neonClientSetWrongDestinationCallback]
      | clientFree h closeOutcome =>
        cases h <;> cases closeOutcome <;>
          simp_all [runOp, writesError, neonClientFree]
      | hostNew sid addr ctor =>
        cases addr with
        | none => simp_all [writesError]
        | some a =>
          cases ctor <;> rcases hp : parseRelayAddress a with _ | pr <;>
            simp_all [runOp, writesError, neonHostNew, MOutcome.isExn]
      | hostStart h m =>
        cases h <;> cases m <;>
          simp_all [runOp, writesError, neonHostStart, MOutcome.isExn]
      | hostProcessPackets h m =>
        cases h <;> cases m <;>
          simp_all [runOp, writesError, neonHostProcessPackets, MOutcome.isExn]
      | hostGetSessionId h m =>
        cases h <;> cases m <;>
          simp_all [runOp, writesError, neonHostGetSessionId, MOutcome.isExn]
      | hostGetClientCount h m =>
        cases h <;> cases m <;>
          simp_all [runOp, writesError, neonHostGetClientCount, MOutcome.isExn]
      | hostSetClientConnect h cb =>
        cases h <;>
          simp_all [runOp, writesError, neonHostSetClientConnectCallback]
      | hostSetClientDeny h cb =>
        cases h <;> simp_all [runOp, writesError, neonHostSetClientDenyCallback]
      | hostSetPingReceived h cb =>
        cases h <;>
          simp_all [runOp, writesError, neonHostSetPingReceivedCallback]
      | hostSetUnhandledPacket h cb =>
        cases h <;>
          simp_all [runOp, writesError, neonHostSetUnhandledPacketCallback]
      | hostFree h closeOutcome =>
        cases h <;> cases closeOutcome <;>
          simp_all [runOp, writesError, neonHostFree]
      | getLastError => rfl

/-- Claim C7: the Error Channel is isolated per thread — running any
error-recording operation on thread A leaves thread B's buffer untouched:
afterwards get-last-error on A returns a non-empty message while on B
(which never errored) it returns the none sentinel. -/
theorem C7_error_channel_isolation :
    ∀ (o : Op) (A B : Nat) (σ : MState), A ≠ B →
      writesError o = true → (σ B).err = [] →
      neon_get_last_error ((runOpAt o A σ).2 B) = none ∧
      neon_get_last_error ((runOpAt o A σ).2 A) =
        some (((runOp o (σ A)).2).err) ∧
      (((runOp o (σ A)).2).err).isEmpty = false := by
  intro o A B σ hAB hw hB
  have hBA : ¬(B = A) := fun hba => hAB hba.symm
  have hBeq : (runOpAt o A σ).2 B = σ B := by
    simp only [runOpAt]
    rw [if_neg hBA]
  have hAeq : (runOpAt o A σ).2 A = (runOp o (σ A)).2 := by
    simp [runOpAt]
  have hne := writesError_err_nonempty o (σ A) hw
  refine ⟨?_, ?_, ?_⟩
  · rw [hBeq, neon_get_last_error, if_pos hB]
  · rw [hAeq, neon_get_last_error, if_neg hne]
  · rcases hl : ((runOp o (σ A)).2).err with _ | ⟨a, t⟩
    · exact absurd hl hne
    · rfl

/-- Claim C7, witness: a failing connect (null handle) on thread 0 is
invisible to thread 1. -/
theorem C7_witness :
    ((0 : Nat) = 1) = False ∧
    writesError (.clientConnect none 0 [] (.ok 0)) = true ∧
    ((fun _ => initThreadState : MState) 1).err = [] ∧
    (neon_get_last_error
        ((runOpAt (.clientConnect none 0 [] (.ok 0)) 0
          (fun _ => initThreadState)).2 1) = none ∧
      neon_get_last_error
        ((runOpAt (.clientConnect none 0 [] (.ok 0)) 0
          (fun _ => initThreadState)).2 0) =
        some (((runOp (.clientConnect none 0 [] (.ok 0))
          ((fun _ => initThreadState : MState) 0)).2).err) ∧
      (((runOp (.clientConnect none 0 [] (.ok 0))
          ((fun _ => initThreadState : MState) 0)).2).err).isEmpty = false) :=
  ⟨by simp, by decide, rfl,
   C7_error_channel_isolation (.clientConnect none 0 [] (.ok 0)) 0 1
     (fun _ => initThreadState) (by decide) (by decide) rfl⟩
